import Mathlib

/-!
# Verification of the `email_hook` engine abstraction

A shallow embedding of `email_hook/engine.py` and
`email_hook/engine_factory.py`, together with theorems settling the
specification's claims about them.

Modelling conventions:

* Python values that occur here (strings, `None`, lists, dicts) are the
  inductive `PyObj`; Python truthiness is `PyObj.truthy`.
* The Django settings module is the structure `Settings`; an attribute that
  is absent from settings is `Option.none`, one that is present holds a
  `PyObj` (possibly `PyObj.none`, i.e. the attribute is set to Python
  `None`).
* Raised exceptions are explicit: a fallible operation returns
  `Except PyErr α`.  Operations that mutate the class attribute
  `EmailEngine.ERRORS` (a plain Python list shared by all subclasses) take
  the current list and return the new one alongside the result, so an
  operation that raises still exposes the appends it performed before the
  exception escaped.
* Observable effects (`print` calls and calls into a third-party transport
  client) are returned as a list of `Event`s.
* Keyword arguments of `send_mail`-shaped calls are the structure `Kwargs`;
  a field is `Option.none` when the keyword was not passed, so
  `kwargs.get(k, "")` is `Option.getD` with default `PyObj.str ""`.

CPython behaviours that the source exercises and that the model translates
faithfully:

* `getattr(obj, name, default)` raises `TypeError` when `name` is not a
  string, before the default is considered.  `engine.py` calls
  `getattr("POSTMARK_API_KEY", settings, None)` (and the class attribute
  initialiser `getattr("EMAIL_HOST_USER", settings, None)`) with the two
  first arguments swapped, so `name` is the settings module object.
* Calling a function that has a required positional parameter with no
  argument raises `TypeError` before the body runs.
  `is_email_sending_parameters_sufficient` calls
  `cls.get_email_sending_parameters()` although every implementation
  requires `to_email`.
* `get_aws_ses_client` and `get_postmark_client` are declared
  `@staticmethod` yet take a parameter named `cls`; the call sites pass no
  argument, so the call raises `TypeError` (caught by the surrounding
  `try`).
* `raise <str>` raises `TypeError: exceptions must derive from
  BaseException`; the string operand never reaches the caller.
* Inside `class EmailEngine`, the expression `cls.__send_mail` is
  name-mangled to `cls._EmailEngine__send_mail`.  The subclasses define
  `__send_mail` in their own bodies, producing differently mangled
  attributes (`_AWSSESEmailEngine__send_mail`, ...), so
  `EmailEngine.send_mail` always resolves to the abstract base method,
  whose body is `pass`.
-/

/-- The Python values manipulated by `engine.py`: `None`, strings, lists
and string-keyed dicts (dicts keep insertion order, modelled as
association lists). -/
inductive PyObj where
  | none : PyObj
  | str : String → PyObj
  | list : List PyObj → PyObj
  | dict : List (String × PyObj) → PyObj

/-- Python truthiness for the values above: `None`, `""`, `[]` and `{}`
are falsy, everything else truthy. -/
def PyObj.truthy : PyObj → Bool
  | .none => false
  | .str s => !(s == "")
  | .list xs => !xs.isEmpty
  | .dict kvs => !kvs.isEmpty

/-- A raised Python exception.  The source only ever produces
`TypeError`s (swapped `getattr` arguments, missing required positional
arguments, raising a non-exception) besides whatever the third-party
transport raises, which we also carry as a message. -/
inductive PyErr where
  | typeError : String → PyErr
  | exception : String → PyErr
deriving DecidableEq

/-- The message text of an exception, as interpolated by the
`except Exception as Err: print(f"... {Err}")` handlers. -/
def PyErr.msg : PyErr → String
  | .typeError m => m
  | .exception m => m

/-- The Django settings module: each recognised attribute is absent
(`Option.none`) or present with a Python value. -/
structure Settings where
  EMAIL_HOST_USER : Option PyObj := Option.none
  POSTMARK_API_KEY : Option PyObj := Option.none
  AWS_SES_ACCESS_KEY_ID : Option PyObj := Option.none
  AWS_ACCESS_KEY_ID : Option PyObj := Option.none
  AWS_SES_SECRET_ACCESS_KEY : Option PyObj := Option.none
  AWS_SECRET_ACCESS_KEY : Option PyObj := Option.none
  AWS_SES_REGION : Option PyObj := Option.none
  AWS_DEFAULT_REGION : Option PyObj := Option.none

/-- The keyword arguments a `send_mail(to_email, from_email, **kwargs)`
call may carry; `Option.none` means the keyword was not passed. -/
structure Kwargs where
  Subject : Option PyObj := Option.none
  HtmlBody : Option PyObj := Option.none
  ccs : Option PyObj := Option.none
  bccs : Option PyObj := Option.none
  message : Option PyObj := Option.none
  subject : Option PyObj := Option.none
  html_message : Option PyObj := Option.none

/-- `kwargs.get(key, "")`: the passed value, or the empty string. -/
def Kwargs.get (v : Option PyObj) : PyObj := v.getD (.str "")

/-- Python `a or b`. -/
def pyOr (a b : PyObj) : PyObj := if a.truthy then a else b

/-- An observable effect: a call into a third-party transport client
(with the payload handed to it), or a `print`. -/
inductive Event where
  | transport : String → List (String × PyObj) → Event
  | printed : String → Event

/-- Whether an event is a transport call. -/
def Event.isTransport : Event → Bool
  | .transport _ _ => true
  | .printed _ => false

/-- `getattr(obj, name, default)` where `name` is not a string: CPython
raises `TypeError` before looking at the default.  `engine.py` does this
twice, with the object and name arguments swapped:
`getattr("EMAIL_HOST_USER", settings, None)` (line 17) and
`getattr("POSTMARK_API_KEY", settings, None)` (line 169). -/
def getattrNonStringName : Except PyErr PyObj :=
  .error (.typeError "attribute name must be string")

/-- The class-attribute initialiser
`FROM_EMAIL = getattr("EMAIL_HOST_USER", settings, None)` (engine.py
line 17): its arguments are swapped, so evaluating it — which happens
while the module is being imported and the `class EmailEngine` body
executes — raises
`TypeError`.  The per-method definitions below nevertheless model each
method's own body, taking the value of `cls.FROM_EMAIL` as a parameter
`fromEmailAttr`. -/
def EmailEngine.FROM_EMAIL_attr : Except PyErr PyObj :=
  getattrNonStringName

/-- The three concrete engine classes. -/
inductive Engine where
  | django : Engine
  | postmark : Engine
  | awsses : Engine
deriving DecidableEq

/-- `AWSSESEmailEngine.get_configuration` (engine.py lines 81-100):
three keys, each read with `getattr(settings, ..., None)` fallbacks; the
region additionally falls back to the literal `"us-east-1"` when
`AWS_DEFAULT_REGION` is absent. -/
def AWSSESEmailEngine.get_configuration (s : Settings) : List (String × PyObj) :=
  [("AWS_SES_ACCESS_KEY_ID",
      pyOr (s.AWS_SES_ACCESS_KEY_ID.getD .none) (s.AWS_ACCESS_KEY_ID.getD .none)),
   ("AWS_SES_SECRET_ACCESS_KEY",
      pyOr (s.AWS_SES_SECRET_ACCESS_KEY.getD .none) (s.AWS_SECRET_ACCESS_KEY.getD .none)),
   ("AWS_SES_REGION",
      pyOr (s.AWS_SES_REGION.getD .none) (s.AWS_DEFAULT_REGION.getD (.str "us-east-1")))]

/-- `PostmarkEmailEngine.get_configuration` (engine.py lines 166-171):
the single dict value is `getattr("POSTMARK_API_KEY", settings, None)`,
whose swapped arguments make the call raise `TypeError` while the dict
is being built, so the method never returns a mapping. -/
def PostmarkEmailEngine.get_configuration (_s : Settings) :
    Except PyErr (List (String × PyObj)) := do
  let v ← getattrNonStringName
  return [("POSTMARK_API_KEY", v)]

/-- `DjangoEmailEngine.get_configuration` (engine.py lines 210-213): the
empty dict. -/
def DjangoEmailEngine.get_configuration : List (String × PyObj) := []

/-- Dynamic dispatch of `cls.get_configuration()`. -/
def get_configuration (e : Engine) (s : Settings) :
    Except PyErr (List (String × PyObj)) :=
  match e with
  | .django => .ok DjangoEmailEngine.get_configuration
  | .postmark => PostmarkEmailEngine.get_configuration s
  | .awsses => .ok (AWSSESEmailEngine.get_configuration s)

/-- `to_email if isinstance(to_email, list) else [to_email,]` (engine.py
lines 109-113). -/
def toAddresses (to_email : PyObj) : PyObj :=
  match to_email with
  | .list xs => .list xs
  | other => .list [other]

/-- `AWSSESEmailEngine.get_email_sending_parameters` (engine.py lines
102-130).  `fromEmailAttr` is the value of the class attribute
`cls.FROM_EMAIL`. -/
def AWSSESEmailEngine.get_email_sending_parameters
    (to_email from_email fromEmailAttr : PyObj) (kw : Kwargs) :
    List (String × PyObj) :=
  [("Source", pyOr from_email fromEmailAttr),
   ("Destination", .dict
      [("ToAddresses", toAddresses to_email),
       ("CcAddresses", Kwargs.get kw.ccs),
       ("BccAddresses", Kwargs.get kw.bccs)]),
   ("Message", .dict
      [("Body", .dict
          [("Html", .dict
              [("Charset", .str "UTF-8"),
               ("Data", Kwargs.get kw.HtmlBody)])]),
       ("Subject", .dict
          [("Charset", .str "UTF-8"),
           ("Data", Kwargs.get kw.Subject)])])]

/-- `PostmarkEmailEngine.get_email_sending_parameters` (engine.py lines
173-183). -/
def PostmarkEmailEngine.get_email_sending_parameters
    (to_email from_email fromEmailAttr : PyObj) (kw : Kwargs) :
    List (String × PyObj) :=
  [("From", pyOr from_email fromEmailAttr),
   ("To", to_email),
   ("Subject", Kwargs.get kw.Subject),
   ("HtmlBody", Kwargs.get kw.HtmlBody)]

/-- `DjangoEmailEngine.get_email_sending_parameters` (engine.py lines
215-228). -/
def DjangoEmailEngine.get_email_sending_parameters
    (to_email from_email fromEmailAttr : PyObj) (kw : Kwargs) :
    List (String × PyObj) :=
  [("from_email", pyOr from_email fromEmailAttr),
   ("recipient_list", .list [to_email]),
   ("message", Kwargs.get kw.message),
   ("subject", Kwargs.get kw.subject),
   ("html_message", Kwargs.get kw.html_message)]

/-- Dynamic dispatch of `cls.get_email_sending_parameters(to_email,
from_email, **kwargs)` when the required `to_email` is supplied. -/
def get_email_sending_parameters (e : Engine)
    (to_email from_email fromEmailAttr : PyObj) (kw : Kwargs) :
    List (String × PyObj) :=
  match e with
  | .django => DjangoEmailEngine.get_email_sending_parameters to_email from_email fromEmailAttr kw
  | .postmark => PostmarkEmailEngine.get_email_sending_parameters to_email from_email fromEmailAttr kw
  | .awsses => AWSSESEmailEngine.get_email_sending_parameters to_email from_email fromEmailAttr kw

/-- `EmailEngine.__is_sufficient` (engine.py lines 49-57): if every dict
value is truthy, return `True` touching nothing; otherwise append one
error string *per key of the dict* (the loop runs over all keys, missing
or not) to the shared `ERRORS` list and return `False`.  Takes and
returns the current `ERRORS` contents. -/
def EmailEngine.is_sufficient (errors : List String)
    (resource : List (String × PyObj)) (marker : String) :
    Bool × List String :=
  if resource.all (fun kv => kv.2.truthy) then
    (true, errors)
  else
    (false, errors ++ resource.map (fun kv => kv.1 ++ " is missing in " ++ marker))

/-- `EmailEngine.is_configuration_sufficient` (engine.py lines 59-62):
fetch the configuration (which raises for `PostmarkEmailEngine`) and run
the sufficiency check with marker `"Settings"`. -/
def EmailEngine.is_configuration_sufficient (e : Engine) (s : Settings)
    (errors : List String) : Except PyErr Bool × List String :=
  match get_configuration e s with
  | .error err => (.error err, errors)
  | .ok configurations =>
      let r := EmailEngine.is_sufficient errors configurations "Settings"
      (.ok r.1, r.2)

/-- The call `cls.get_email_sending_parameters()` made by
`is_email_sending_parameters_sufficient` (engine.py line 66): every
implementation declares `to_email` with no default, so CPython raises
`TypeError` before any body runs. -/
def get_email_sending_parameters_no_args :
    Except PyErr (List (String × PyObj)) :=
  .error (.typeError
    "get_email_sending_parameters() missing 1 required positional argument: to_email")

/-- `EmailEngine.is_email_sending_parameters_sufficient` (engine.py
lines 64-69): would run the sufficiency check with marker
`"Email sending parameters"` on `cls.get_email_sending_parameters()`,
but that call raises, so the method always raises without touching
`ERRORS`. -/
def EmailEngine.is_email_sending_parameters_sufficient
    (errors : List String) : Except PyErr Bool × List String :=
  match get_email_sending_parameters_no_args with
  | .error err => (.error err, errors)
  | .ok email_sending_parameters =>
      let r := EmailEngine.is_sufficient errors email_sending_parameters
        "Email sending parameters"
      (.ok r.1, r.2)

/-- `EmailEngine.get_email_status` (engine.py lines 71-77): run both
sufficiency checks for their effect on `ERRORS`, then return whether
`len(cls.ERRORS)` is zero.  An exception in either check propagates,
keeping the appends made so far. -/
def EmailEngine.get_email_status (e : Engine) (s : Settings)
    (errors : List String) : Except PyErr Bool × List String :=
  match EmailEngine.is_configuration_sufficient e s errors with
  | (.error err, errors1) => (.error err, errors1)
  | (.ok _, errors1) =>
      match EmailEngine.is_email_sending_parameters_sufficient errors1 with
      | (.error err, errors2) => (.error err, errors2)
      | (.ok _, errors2) => (.ok errors2.isEmpty, errors2)

/-- The abstract `EmailEngine.__send_mail` (engine.py lines 31-34),
i.e. the attribute `_EmailEngine__send_mail`: its body is `pass`, so it
performs no effect and returns `None`.  Because of name mangling this is
the method `cls.__send_mail` resolves to inside `EmailEngine.send_mail`,
for every subclass. -/
def EmailEngine.base_send_mail_hook : Except PyErr Unit × List Event :=
  (.ok (), [])

/-- `EmailEngine.send_mail` (engine.py lines 36-42): ask
`get_email_status`; on `True` call `cls.__send_mail` — the abstract
base no-op, by name mangling — and on `False` print the accumulated
errors.  An exception from `get_email_status` propagates to the caller.
Returns (result, final `ERRORS`, events).  The `print(f"... {cls.ERRORS} ")`
list formatting is modelled as a comma-separated join. -/
def EmailEngine.send_mail (e : Engine) (s : Settings)
    (_to_email _from_email : PyObj) (_kw : Kwargs)
    (errors : List String) : Except PyErr Unit × List String × List Event :=
  match EmailEngine.get_email_status e s errors with
  | (.error err, errors1) => (.error err, errors1, [])
  | (.ok true, errors1) =>
      let hook := EmailEngine.base_send_mail_hook
      (hook.1, errors1, hook.2)
  | (.ok false, errors1) =>
      (.ok (), errors1,
        [.printed ("Fix the following ERRORS : " ++ String.intercalate ", " errors1 ++ " ")])

/-- The call `cls.get_aws_ses_client()` (engine.py line 157):
`get_aws_ses_client` is a `@staticmethod` whose first parameter is named
`cls` (lines 132-149), and the call passes nothing, so CPython raises
`TypeError` before the body runs. -/
def get_aws_ses_client_no_args : Except PyErr Unit :=
  .error (.typeError
    "get_aws_ses_client() missing 1 required positional argument: cls")

/-- The call `PostmarkEmailEngine.get_postmark_client()` (engine.py line
201): same `@staticmethod`-with-`cls` slip as the AWS client getter
(lines 185-193), so the call raises `TypeError`. -/
def get_postmark_client_no_args : Except PyErr Unit :=
  .error (.typeError
    "get_postmark_client() missing 1 required positional argument: cls")

/-- `AWSSESEmailEngine.__send_mail` (engine.py lines 151-162): build the
parameters, then inside `try` obtain the client and call
`aws_client.send_email(**email_parameters)`; `except Exception` prints
the error, `else` prints success.  The client call raises (caught), so
the transport is never reached; `transport` models what
`send_email` would do. -/
def AWSSESEmailEngine.send_mail_hook
    (to_email from_email fromEmailAttr : PyObj) (kw : Kwargs)
    (transport : List (String × PyObj) → Except PyErr Unit) :
    Except PyErr Unit × List Event :=
  let email_parameters :=
    AWSSESEmailEngine.get_email_sending_parameters to_email from_email fromEmailAttr kw
  match get_aws_ses_client_no_args with
  | .error err => (.ok (), [.printed ("Email Sending Error " ++ err.msg)])
  | .ok _ =>
      match transport email_parameters with
      | .error err =>
          (.ok (), [.transport "ses" email_parameters,
                    .printed ("Email Sending Error " ++ err.msg)])
      | .ok _ =>
          (.ok (), [.transport "ses" email_parameters, .printed "Email Sent"])

/-- `PostmarkEmailEngine.__send_mail` (engine.py lines 195-206): same
shape as the AWS hook, with `postmark.emails.send(**email_parameters)`
as the transport; the client call raises (caught) before it. -/
def PostmarkEmailEngine.send_mail_hook
    (to_email from_email fromEmailAttr : PyObj) (kw : Kwargs)
    (transport : List (String × PyObj) → Except PyErr Unit) :
    Except PyErr Unit × List Event :=
  let email_parameters :=
    PostmarkEmailEngine.get_email_sending_parameters to_email from_email fromEmailAttr kw
  match get_postmark_client_no_args with
  | .error err => (.ok (), [.printed ("Email Sending Error " ++ err.msg)])
  | .ok _ =>
      match transport email_parameters with
      | .error err =>
          (.ok (), [.transport "postmark" email_parameters,
                    .printed ("Email Sending Error " ++ err.msg)])
      | .ok _ =>
          (.ok (), [.transport "postmark" email_parameters, .printed "Email Sent"])

/-- `DjangoEmailEngine.__send_mail` (engine.py lines 230-240): build the
parameters and call Django's `send_mail(**email_parameters)` inside
`try`/`except Exception`; failures are printed, success prints
`"Email Sent"`; nothing propagates. -/
def DjangoEmailEngine.send_mail_hook
    (to_email from_email fromEmailAttr : PyObj) (kw : Kwargs)
    (transport : List (String × PyObj) → Except PyErr Unit) :
    Except PyErr Unit × List Event :=
  let email_parameters :=
    DjangoEmailEngine.get_email_sending_parameters to_email from_email fromEmailAttr kw
  match transport email_parameters with
  | .error err =>
      (.ok (), [.transport "django.core.mail.send_mail" email_parameters,
                .printed ("Email Sending Error " ++ err.msg)])
  | .ok _ =>
      (.ok (), [.transport "django.core.mail.send_mail" email_parameters,
                .printed "Email Sent"])

/-- The variant-specific send hook (`_<Variant>__send_mail`), dispatched
on the engine. -/
def variant_send_mail_hook (e : Engine)
    (to_email from_email fromEmailAttr : PyObj) (kw : Kwargs)
    (transport : List (String × PyObj) → Except PyErr Unit) :
    Except PyErr Unit × List Event :=
  match e with
  | .django => DjangoEmailEngine.send_mail_hook to_email from_email fromEmailAttr kw transport
  | .postmark => PostmarkEmailEngine.send_mail_hook to_email from_email fromEmailAttr kw transport
  | .awsses => AWSSESEmailEngine.send_mail_hook to_email from_email fromEmailAttr kw transport

/-- The factory's lookup table (engine_factory.py lines 10-14). -/
def engine_mapping : List (String × Engine) :=
  [("DJANGO", .django), ("POSTMARK", .postmark), ("AWSSES", .awsses)]

/-- The string the factory attempts to raise on an unknown name
(engine_factory.py line 17); the quoting of Python's list repr is
elided. -/
def factory_error_string (engine_name : String) : String :=
  "Invalid Email engine name " ++ engine_name ++
    ", choose from [DJANGO, POSTMARK, AWSSES]"

/-- `email_engine_factory` (engine_factory.py lines 9-17): dict lookup
(class objects are truthy, so `if ...get(name):` means "found"); on a
miss the code executes `raise <f-string>`, and raising a non-exception
value makes CPython raise `TypeError: exceptions must derive from
BaseException` — the formatted string never reaches the caller. -/
def email_engine_factory (engine_name : String) : Except PyErr Engine :=
  match engine_mapping.lookup engine_name with
  | some engine => .ok engine
  | Option.none =>
      let _unraisable := factory_error_string engine_name
      .error (.typeError "exceptions must derive from BaseException")

/-- Whatever the engine and settings, `get_email_status` ends in a raised
exception: the configuration check raises for Postmark, and the
parameters shape check raises for every engine. -/
lemma get_email_status_fst_error (e : Engine) (s : Settings)
    (errors : List String) :
    ∃ err, (EmailEngine.get_email_status e s errors).1 = Except.error err := by
  cases e
  · exact ⟨_, rfl⟩
  · exact ⟨_, rfl⟩
  · exact ⟨_, rfl⟩

/-- `send_mail` propagates the exception from `get_email_status` and
produces no events. -/
lemma send_mail_eq_error (e : Engine) (s : Settings)
    (to_email from_email : PyObj) (kw : Kwargs) (errors : List String) :
    ∃ err, EmailEngine.send_mail e s to_email from_email kw errors =
      (Except.error err, (EmailEngine.get_email_status e s errors).2, []) := by
  cases e
  · exact ⟨_, rfl⟩
  · exact ⟨_, rfl⟩
  · exact ⟨_, rfl⟩

/-- C1: the claim says a `send_mail` call whose `get_email_status` is true
makes exactly one transport call with the payload built by
`get_email_sending_parameters`.  On the code, `send_mail` makes zero
transport calls for every engine, settings, arguments and prior `ERRORS`
state, and instead lets a `TypeError` escape: `get_email_status` raises
before returning a boolean, and even the sending branch would dispatch to
the abstract base no-op because of name mangling. -/
theorem C1_send_mail_never_invokes_transport (e : Engine) (s : Settings)
    (to_email from_email : PyObj) (kw : Kwargs) (errors : List String) :
    (EmailEngine.send_mail e s to_email from_email kw errors).2.2.countP
        Event.isTransport = 0 ∧
    ∃ err, (EmailEngine.send_mail e s to_email from_email kw errors).1 =
      Except.error err := by
  obtain ⟨err, h⟩ := send_mail_eq_error e s to_email from_email kw errors
  rw [h]
  exact ⟨rfl, ⟨err, rfl⟩⟩

/-- C2: the claim says that when `get_email_status()` is false,
`send_mail` prints the accumulated errors and does not send.  On the code,
`get_email_status` never returns false (or any boolean): it raises
`TypeError`, which `send_mail` propagates to the caller, printing nothing
and producing no events at all. -/
theorem C2_send_mail_raises_and_prints_nothing (e : Engine) (s : Settings)
    (to_email from_email : PyObj) (kw : Kwargs) (errors : List String) :
    ∃ err, EmailEngine.send_mail e s to_email from_email kw errors =
      (Except.error err, (EmailEngine.get_email_status e s errors).2, []) :=
  send_mail_eq_error e s to_email from_email kw errors

/-- C5: the claim says `get_email_status()` runs both sufficiency checks
and then returns true iff the shared error accumulator is empty.  On the
code it never returns a boolean for any engine, settings or prior
`ERRORS` state: the parameters check (and, for Postmark, already the
configuration check) raises `TypeError`. -/
theorem C5_get_email_status_always_raises (e : Engine) (s : Settings)
    (errors : List String) :
    ∃ err, (EmailEngine.get_email_status e s errors).1 = Except.error err :=
  get_email_status_fst_error e s errors

/-- C6: the claim says `is_email_sending_parameters_sufficient()` runs the
sufficiency check on `get_email_sending_parameters()` with all fields
defaulting to empty.  On the code, `to_email` has no default, so the
no-argument call raises `TypeError` and the check never runs; the error
accumulator is left untouched. -/
theorem C6_parameters_shape_check_raises (errors : List String) :
    EmailEngine.is_email_sending_parameters_sufficient errors =
      (Except.error (PyErr.typeError
        "get_email_sending_parameters() missing 1 required positional argument: to_email"),
       errors) :=
  rfl

/-- C3: the claim says unknown names fail with an error whose message
lists the three valid names.  The lookup half is right: the factory
returns the matching engine class for the three known names and fails on
every other name.  But because `email_engine_factory` executes
`raise <f-string>` — raising a value that is not a `BaseException` — the
exception the caller actually sees is
`TypeError: exceptions must derive from BaseException`; the formatted
string that does list the three names never reaches the caller. -/
theorem C3_factory_lookup_and_malformed_raise :
    email_engine_factory "DJANGO" = Except.ok Engine.django ∧
    email_engine_factory "POSTMARK" = Except.ok Engine.postmark ∧
    email_engine_factory "AWSSES" = Except.ok Engine.awsses ∧
    email_engine_factory "SMTP" =
      Except.error (PyErr.typeError "exceptions must derive from BaseException") ∧
    factory_error_string "SMTP" =
      "Invalid Email engine name SMTP, choose from [DJANGO, POSTMARK, AWSSES]" :=
  ⟨rfl, rfl, rfl, rfl, rfl⟩

/-- C7: the claim says every variant's `get_configuration()` returns its
mapping without raising, absent settings resolving to null/empty values.
That holds for `DjangoEmailEngine` and `AWSSESEmailEngine`, but
`PostmarkEmailEngine.get_configuration` passes the settings module as the
*name* argument of `getattr` (the first two arguments are swapped), so it
raises `TypeError` under every settings state and never returns a
mapping. -/
theorem C7_postmark_get_configuration_raises (s : Settings) :
    get_configuration .postmark s =
      Except.error (PyErr.typeError "attribute name must be string") ∧
    get_configuration .django s = Except.ok [] ∧
    get_configuration .awsses s =
      Except.ok (AWSSESEmailEngine.get_configuration s) :=
  ⟨rfl, rfl, rfl⟩

/-- C8: for every variant, arguments, class attribute value and transport
behaviour, the variant's own send hook (`_<Variant>__send_mail`) returns
normally: the parameter building cannot raise, and everything inside the
`try` — including the failing client-getter calls and any exception the
transport raises — is caught by `except Exception` and only printed. -/
theorem C8_variant_send_hook_never_raises (e : Engine)
    (to_email from_email fromEmailAttr : PyObj) (kw : Kwargs)
    (transport : List (String × PyObj) → Except PyErr Unit) :
    (variant_send_mail_hook e to_email from_email fromEmailAttr kw transport).1 =
      Except.ok () := by
  cases e
  · simp only [variant_send_mail_hook, DjangoEmailEngine.send_mail_hook]
    cases transport
        (DjangoEmailEngine.get_email_sending_parameters to_email from_email fromEmailAttr kw) <;>
      rfl
  · rfl
  · rfl

/-- Settings in which exactly one of the three AWSSES configuration
values is missing: the secret key and region are present, the access-key
pair is absent. -/
def settingsOneKeyMissing : Settings :=
  { AWS_SES_SECRET_ACCESS_KEY := some (.str "SECRET"),
    AWS_SES_REGION := some (.str "eu-west-1") }

/-- C4 counterexample: under `settingsOneKeyMissing` exactly one of the
three AWSSES configuration values is falsy, yet
`is_configuration_sufficient` appends three error strings — one per key
of the mapping, present keys included — not "exactly one per missing
key" as the claim states. -/
theorem C4_counterexample :
    ((AWSSESEmailEngine.get_configuration settingsOneKeyMissing).filter
        (fun kv => !kv.2.truthy)).length = 1 ∧
    (EmailEngine.is_configuration_sufficient .awsses settingsOneKeyMissing []).2 =
      ["AWS_SES_ACCESS_KEY_ID is missing in Settings",
       "AWS_SES_SECRET_ACCESS_KEY is missing in Settings",
       "AWS_SES_REGION is missing in Settings"] :=
  ⟨rfl, rfl⟩

/-- C4 amended: when all configuration values are present the check
returns true and appends nothing; when any value is falsy it returns
false and appends one `"<key> is missing in Settings"` error per *key of
the configuration mapping* (present keys included), since the error loop
runs over every key.  For `DjangoEmailEngine` the mapping is empty so the
check always succeeds; for `PostmarkEmailEngine` the check raises instead
of returning, because its configuration fetch raises `TypeError`. -/
theorem C4_is_configuration_sufficient_behaviour (s : Settings)
    (errors : List String) :
    (EmailEngine.is_configuration_sufficient .awsses s errors =
      if (AWSSESEmailEngine.get_configuration s).all (fun kv => kv.2.truthy) then
        (Except.ok true, errors)
      else
        (Except.ok false, errors ++ (AWSSESEmailEngine.get_configuration s).map
          (fun kv => kv.1 ++ " is missing in Settings"))) ∧
    EmailEngine.is_configuration_sufficient .django s errors =
      (Except.ok true, errors) ∧
    EmailEngine.is_configuration_sufficient .postmark s errors =
      (Except.error (PyErr.typeError "attribute name must be string"), errors) := by
  refine ⟨?_, rfl, rfl⟩
  simp only [EmailEngine.is_configuration_sufficient, get_configuration,
    EmailEngine.is_sufficient]
  split <;> rfl

/-- The final `ERRORS` state of `get_email_status` is the one left by the
configuration check: the parameters check raises before appending. -/
lemma get_email_status_snd (e : Engine) (s : Settings) (errors : List String) :
    (EmailEngine.get_email_status e s errors).2 =
      (EmailEngine.is_configuration_sufficient e s errors).2 := by
  cases e <;> rfl

/-- The final `ERRORS` state of `send_mail` is the one left by
`get_email_status`. -/
lemma send_mail_snd (e : Engine) (s : Settings)
    (to_email from_email : PyObj) (kw : Kwargs) (errors : List String) :
    (EmailEngine.send_mail e s to_email from_email kw errors).2.1 =
      (EmailEngine.get_email_status e s errors).2 := by
  cases e <;> rfl

/-- The configuration check only ever appends to `ERRORS`. -/
lemma is_configuration_sufficient_snd_append (e : Engine) (s : Settings)
    (errors : List String) :
    ∃ t, (EmailEngine.is_configuration_sufficient e s errors).2 = errors ++ t := by
  cases e
  · exact ⟨[], (List.append_nil errors).symm⟩
  · exact ⟨[], (List.append_nil errors).symm⟩
  · simp only [EmailEngine.is_configuration_sufficient, get_configuration,
      EmailEngine.is_sufficient]
    split
    · exact ⟨[], (List.append_nil errors).symm⟩
    · exact ⟨_, rfl⟩

/-- C9 amended: `ERRORS` is one list shared by all variants, and across
every operation its contents only grow — each operation's resulting list
is the input list with entries appended (none removed), even when the
operation raises.  However, once an error has been recorded no later
`get_email_status()` returns false as the claim concludes: no
`get_email_status()` call returns a boolean at all (it raises
`TypeError`), so in particular none ever returns true. -/
theorem C9_errors_only_grow_and_status_never_true (e : Engine) (s : Settings)
    (errors : List String) (to_email from_email : PyObj) (kw : Kwargs) :
    (∃ t, (EmailEngine.is_configuration_sufficient e s errors).2 = errors ++ t) ∧
    (∃ t, (EmailEngine.is_email_sending_parameters_sufficient errors).2 =
      errors ++ t) ∧
    (∃ t, (EmailEngine.get_email_status e s errors).2 = errors ++ t) ∧
    (∃ t, (EmailEngine.send_mail e s to_email from_email kw errors).2.1 =
      errors ++ t) ∧
    (EmailEngine.get_email_status e s errors).1 ≠ Except.ok true := by
  obtain ⟨t, ht⟩ := is_configuration_sufficient_snd_append e s errors
  refine ⟨⟨t, ht⟩, ⟨[], (List.append_nil errors).symm⟩, ⟨t, ?_⟩, ⟨t, ?_⟩, ?_⟩
  · rw [get_email_status_snd]
    exact ht
  · rw [send_mail_snd, get_email_status_snd]
    exact ht
  · obtain ⟨err, herr⟩ := get_email_status_fst_error e s errors
    rw [herr]
    intro h
    exact Except.noConfusion h

/-- C9 counterexample: with an error already recorded in `ERRORS`, a
later `get_email_status()` call does not return false — it raises
`TypeError` instead of returning a boolean. -/
theorem C9_counterexample :
    (["AWS_SES_ACCESS_KEY_ID is missing in Settings"] : List String) ≠ [] ∧
    (EmailEngine.get_email_status .django {}
      ["AWS_SES_ACCESS_KEY_ID is missing in Settings"]).1 ≠ Except.ok false := by
  refine ⟨by simp, fun h => Except.noConfusion h⟩

/-- Settings in which `AWS_DEFAULT_REGION` is present but set to the
empty string (and everything else is absent). -/
def settingsEmptyDefaultRegion : Settings :=
  { AWS_DEFAULT_REGION := some (.str "") }

/-- Truthiness of Python `a or b`. -/
lemma pyOr_truthy (a b : PyObj) : (pyOr a b).truthy = (a.truthy || b.truthy) := by
  cases h : a.truthy <;> simp [pyOr, h]

/-- C10 counterexample: (a) with `AWS_DEFAULT_REGION` set to the empty
string, the configuration maps `AWS_SES_REGION` to `""` — an empty
value, so the region is *not* non-empty in every configuration state;
and (b) even in a state where the region resolves to the non-empty
fallback `"us-east-1"`, `is_configuration_sufficient` *does* report the
region key as missing, because the error loop appends one error per key
whenever any other value is missing. -/
theorem C10_counterexample :
    (AWSSESEmailEngine.get_configuration settingsEmptyDefaultRegion).lookup
        "AWS_SES_REGION" = some (.str "") ∧
    (AWSSESEmailEngine.get_configuration {}).lookup "AWS_SES_REGION" =
        some (.str "us-east-1") ∧
    "AWS_SES_REGION is missing in Settings" ∈
      (EmailEngine.is_configuration_sufficient .awsses {} []).2 := by
  refine ⟨rfl, rfl, ?_⟩
  exact List.mem_cons_of_mem _ (List.mem_cons_of_mem _ (List.mem_cons_self _ _))

/-- C10 amended: the configuration maps `AWS_SES_REGION` to
`"us-east-1"` when neither `AWS_SES_REGION` nor `AWS_DEFAULT_REGION` is
set, and in general to a value that is non-empty iff `AWS_SES_REGION`
resolves truthy or the `AWS_DEFAULT_REGION` fetch (with its `"us-east-1"`
default) does — so the region value is only empty when
`AWS_DEFAULT_REGION` is explicitly set to an empty/None value.  However
`is_configuration_sufficient` *can* report the region key as missing:
whenever any configuration value is falsy, the error loop appends
`"AWS_SES_REGION is missing in Settings"` along with an error for every
other key. -/
theorem C10_region_default_and_error_report (s : Settings) :
    (s.AWS_SES_REGION = Option.none → s.AWS_DEFAULT_REGION = Option.none →
      (AWSSESEmailEngine.get_configuration s).lookup "AWS_SES_REGION" =
        some (.str "us-east-1")) ∧
    (∃ v, (AWSSESEmailEngine.get_configuration s).lookup "AWS_SES_REGION" =
        some v ∧
      v.truthy = ((s.AWS_SES_REGION.getD .none).truthy ||
        (s.AWS_DEFAULT_REGION.getD (.str "us-east-1")).truthy)) ∧
    ((AWSSESEmailEngine.get_configuration s).all (fun kv => kv.2.truthy) = false →
      "AWS_SES_REGION is missing in Settings" ∈
        (EmailEngine.is_configuration_sufficient .awsses s []).2) := by
  refine ⟨?_, ?_, ?_⟩
  · intro h1 h2
    simp [AWSSESEmailEngine.get_configuration, List.lookup, h1, h2, pyOr,
      PyObj.truthy]
  · exact ⟨_, rfl, pyOr_truthy _ _⟩
  · intro h
    have hsnd : (EmailEngine.is_configuration_sufficient .awsses s []).2 =
        (AWSSESEmailEngine.get_configuration s).map
          (fun kv => kv.1 ++ " is missing in " ++ "Settings") := by
      simp [EmailEngine.is_configuration_sufficient, get_configuration,
        EmailEngine.is_sufficient, h]
    rw [hsnd]
    exact List.mem_cons_of_mem _ (List.mem_cons_of_mem _ (List.mem_cons_self _ _))

/-- C10 witness: the amended theorem applied to the all-absent settings
state: the region falls back to `"us-east-1"`, yet the configuration
check still reports the region key as missing. -/
theorem C10_region_witness :
    (AWSSESEmailEngine.get_configuration {}).lookup "AWS_SES_REGION" =
        some (.str "us-east-1") ∧
    "AWS_SES_REGION is missing in Settings" ∈
      (EmailEngine.is_configuration_sufficient .awsses {} []).2 :=
  ⟨(C10_region_default_and_error_report {}).1 rfl rfl,
   (C10_region_default_and_error_report {}).2.2 rfl⟩

/-- C9 witness: the growth-and-never-true theorem applied to the Django
engine with all settings absent and an empty prior `ERRORS` list. -/
theorem C9_growth_witness :
    (∃ t, (EmailEngine.is_configuration_sufficient .django {} []).2 = [] ++ t) ∧
    (EmailEngine.get_email_status .django {} []).1 ≠ Except.ok true :=
  ⟨(C9_errors_only_grow_and_status_never_true .django {} []
      (.str "a@b.com") (.str "") {}).1,
   (C9_errors_only_grow_and_status_never_true .django {} []
      (.str "a@b.com") (.str "") {}).2.2.2.2⟩
